import Mathlib

/-!
Verification of the syslog-gollector edge process (emmanuel/syslog-gollector).

The repository's `main` package (syslog-gollector.go) wires together:
network listeners -> raw channel -> RFC5424 parser -> producer channel ->
Kafka batch producer, and serves `/statistics` and `/diagnostics` over an
administrative HTTP interface.  This file shallowly embeds that wiring
together with models of the pipeline stages whose implementation lives in
the `input`/`output` packages (described by the design spec), and proves the
spec's claims about them.
-/

namespace SyslogGollector

/-! ## Configuration defaults (syslog-gollector.go, `const` block and `init`) -/

def adminHost : String := "localhost:8080"

def connTcpHost : String := "localhost:514"

def connUdpHost : String := "localhost:514"

def kafkaBatch : Nat := 10

def kafkaBrokers : String := "localhost:9092"

def kafkaTopic : String := "logs"

def kafkaBufferTime : Nat := 1000

def kafkaBufferBytes : Nat := 512 * 1024

def parseEnabled : Bool := true

def chanCapacity : Nat := 0

/-- The program's flag-configurable parameters, as registered in `init()`. -/
structure Config where
  adminIface : String
  tcpIface : String
  udpIface : String
  kBrokers : String
  kTopic : String
  kBatch : Nat
  kBufferTime : Nat
  kBufferBytes : Nat
  pEnabled : Bool
  cCapacity : Nat
deriving DecidableEq, Repr

/-- The configuration obtained when no command-line flags are supplied:
each `flag.XVar` call in `init()` leaves its variable at the registered
default constant. -/
def defaultConfig : Config :=
  { adminIface := adminHost
    tcpIface := connTcpHost
    udpIface := connUdpHost
    kBrokers := kafkaBrokers
    kTopic := kafkaTopic
    kBatch := kafkaBatch
    kBufferTime := kafkaBufferTime
    kBufferBytes := kafkaBufferBytes
    pEnabled := parseEnabled
    cCapacity := chanCapacity }

/-! ## Administrative HTTP handlers (isPretty, ServeStatistics, ServeDiagnostics) -/

/-- Abstract error produced by `req.ParseForm()`. -/
inductive FormError where
  | malformed (detail : String)
deriving DecidableEq, Repr

/-- The result of `req.ParseForm()`: either an error, or the set of keys
present in `req.Form`, as a list of strings. -/
def FormResult : Type := Except FormError (List String)

/-- `isPretty` (syslog-gollector.go:69-78): parse the request form; on a
parse error return `(false, err)`; otherwise return `true` exactly when the
key "pretty" is present in the form. -/
def isPretty (r : FormResult) : Bool × Option FormError :=
  match r with
  | .error e => (false, some e)
  | .ok keys => if "pretty" ∈ keys then (true, none) else (false, none)

/-- JSON output format: `json.MarshalIndent` vs `json.Marshal`. -/
inductive JsonFmt where
  | compact
  | indented
deriving DecidableEq, Repr

/-- Outcome of an administrative HTTP handler: either a 200 response whose
body is the given payload rendered in the given format, or an
`http.Error` with the given status code and diagnostic message (no payload
body is written on that path). -/
inductive HttpResponse (σ : Type) where
  | okBody (fmt : JsonFmt) (payload : List (String × σ))
  | httpError (status : Nat) (msg : String)
deriving DecidableEq, Repr

/-- The loop body of `ServeStatistics` (syslog-gollector.go:84-92): walk the
`resources` map entries in iteration order; on the first entry whose
`GetStatistics` fails, abort with that component's name; otherwise collect
every snapshot keyed by component name. -/
def gatherStats {σ : Type} : List (String × Except String σ) → Except String (List (String × σ))
  | [] => .ok []
  | (k, v) :: rest =>
    match v with
    | .error _ => .error k
    | .ok s =>
      match gatherStats rest with
      | .error k2 => .error k2
      | .ok tl => .ok ((k, s) :: tl)

/-- `ServeStatistics` (syslog-gollector.go:81-108).  `resources` is the
`{tcp, udp, parser, kafka}` map in its (arbitrary) Go iteration order;
`form` is the request's form-parse result; `marshalOk` abstracts whether
`json.Marshal` of the collected map succeeds.  Any snapshot failure or
marshal failure produces `http.Error(w, ..., 500)` and returns before any
statistics are written. -/
def ServeStatistics {σ : Type} (resources : List (String × Except String σ))
    (form : FormResult) (marshalOk : Bool) : HttpResponse σ :=
  match gatherStats resources with
  | .error k => .httpError 500 ("failed to get " ++ k ++ " stats")
  | .ok stats =>
    if marshalOk then
      .okBody (if (isPretty form).1 then .indented else .compact) stats
    else
      .httpError 500 "failed to JSON marshal statistics map"

/-- `ServeDiagnostics` (syslog-gollector.go:110-122): build the
started/uptime map, choose the format from `isPretty` (whose error is
discarded with `pretty, _ :=`), marshal discarding any error with
`b, _ =` (`marshalOk` abstracts whether marshalling succeeds; on failure
the written body is empty), and write the body.  The handler never calls
`http.Error` or `WriteHeader`, so the status is always 200. -/
def ServeDiagnostics (form : FormResult) (marshalOk : Bool) (started uptime : String) :
    Nat × JsonFmt × Option (List (String × String)) :=
  (200,
   if (isPretty form).1 then .indented else .compact,
   if marshalOk then some [("started", started), ("uptime", uptime)] else none)

/-! ## Startup control flow of `main` (syslog-gollector.go:124-203) -/

/-- Which fallible startup steps of `main` fail in a given run. -/
structure StartupEnv where
  hostnameErr : Bool
  adminBindErr : Bool
  kafkaErr : Bool
  tcpErr : Bool
  udpErr : Bool
deriving DecidableEq, Repr

/-- Outcome of `main`: `os.Exit code` after emitting the diagnostic `diag`,
or blocking forever in the final empty `select {}`. -/
inductive MainOutcome where
  | exitWith (code : Nat) (diag : String)
  | runForever
deriving DecidableEq, Repr

/-- The fatal-error control flow of `main` (syslog-gollector.go:124-203):
every fallible startup step checks its error, logs a diagnostic and calls
`os.Exit(1)`.  The admin-server bind runs in a goroutine; its failure also
calls `os.Exit(1)`.  If nothing fails, `main` ends in `select {}` and the
process runs forever. -/
def mainStartup (e : StartupEnv) : MainOutcome :=
  if e.hostnameErr then .exitWith 1 "unable to determine hostname -- aborting"
  else if e.adminBindErr then .exitWith 1 "Failed to start admin server"
  else if e.kafkaErr then .exitWith 1 "Failed to create Kafka producer"
  else if e.tcpErr then .exitWith 1 "Failed to start TCP server"
  else if e.udpErr then .exitWith 1 "Failed to start UDP server"
  else .runForever

/-- True when some fatal startup condition occurs. -/
def anyStartupErr (e : StartupEnv) : Bool :=
  e.hostnameErr || e.adminBindErr || e.kafkaErr || e.tcpErr || e.udpErr

/-! ## RFC5424 header parser

Modelled from the spec: the `input.Rfc5424Parser` implementation is not part
of the sources here (only its construction and wiring in `main` are), so the
parser is modelled from the design spec, section 4.4: grammar
`<PRI>VERSION SP TIMESTAMP SP HOSTNAME SP APP-NAME SP PROCID SP MSGID SP
STRUCTURED-DATA [SP MSG]`, left-to-right over whitespace-delimited fields,
NILVALUE `-`, structured data as bracketed elements with escaped characters
inside quoted values, facility = priority / 8, severity = priority mod 8,
and passthrough with a failure reason on any structural violation. -/

/-- A fully decomposed RFC5424 header record. -/
structure Rfc5424Record where
  priority : Nat
  facility : Nat
  severity : Nat
  version : Nat
  timestamp : String
  hostname : String
  appName : String
  procId : String
  msgId : String
  structuredData : Option String
  message : String
deriving DecidableEq, Repr

/-- Numeric value of a list of decimal digit characters. -/
def digitsToNat (ds : List Char) : Nat :=
  ds.foldl (fun acc c => 10 * acc + (c.toNat - 48)) 0

/-- Split a run of decimal digits off the front of the input. -/
def takeDigits : List Char → List Char × List Char
  | [] => ([], [])
  | c :: cs =>
    if c.isDigit then
      let p := takeDigits cs
      (c :: p.1, p.2)
    else ([], c :: cs)

/-- Modelled from the spec: read `<PRI>` — an angle-bracketed, non-empty
run of digits — returning the priority value and the rest. -/
def parsePri : List Char → Option (Nat × List Char)
  | '<' :: cs =>
    match takeDigits cs with
    | ([], _) => none
    | (ds, '>' :: rest) => some (digitsToNat ds, rest)
    | (_, _) => none
  | _ => none

/-- Split the input at the first space character; `none` when the input
has no space (the field is not followed by the delimiter the grammar
requires). -/
def splitAtSpace : List Char → Option (List Char × List Char)
  | [] => none
  | c :: cs =>
    if c = ' ' then some ([], cs)
    else
      match splitAtSpace cs with
      | none => none
      | some (t, r) => some (c :: t, r)

/-- A non-empty whitespace-delimited field followed by its mandatory
space; `none` on an empty or unterminated field (a missing field). -/
def tokenSp (cs : List Char) : Option (List Char × List Char) :=
  match splitAtSpace cs with
  | some ([], _) => none
  | some (t, r) => some (t, r)
  | none => none

/-- Modelled from the spec: scan the body of one bracketed structured-data
element up to and including its closing `]`, honouring escaped characters
inside quoted param values; `none` when the bracket is unterminated.
Returns the consumed characters (closing bracket included) and the rest. -/
def scanSdBody : Bool → List Char → Option (List Char × List Char)
  | _, [] => none
  | true, '\\' :: d :: ds =>
    match scanSdBody true ds with
    | none => none
    | some (t, r) => some ('\\' :: d :: t, r)
  | true, '"' :: ds =>
    match scanSdBody false ds with
    | none => none
    | some (t, r) => some ('"' :: t, r)
  | true, c :: ds =>
    match scanSdBody true ds with
    | none => none
    | some (t, r) => some (c :: t, r)
  | false, ']' :: ds => some ([']'], ds)
  | false, '"' :: ds =>
    match scanSdBody true ds with
    | none => none
    | some (t, r) => some ('"' :: t, r)
  | false, c :: ds =>
    match scanSdBody false ds with
    | none => none
    | some (t, r) => some (c :: t, r)

/-- Modelled from the spec: a sequence of one or more consecutive
bracketed structured-data elements.  `fuel` bounds the number of elements
(each element consumes at least two characters, so the initial input length
is always enough). -/
def sdElems : Nat → List Char → Option (List Char × List Char)
  | 0, _ => none
  | fuel + 1, '[' :: cs =>
    (match scanSdBody false cs with
     | none => none
     | some (body, rest) =>
       match rest with
       | '[' :: _ =>
         match sdElems fuel rest with
         | none => none
         | some (more, rest2) => some ('[' :: body ++ more, rest2)
       | _ => some ('[' :: body, rest))
  | _ + 1, _ => none

/-- Modelled from the spec: the STRUCTURED-DATA field (NILVALUE `-` or
bracketed elements) followed by the optional `SP MSG` tail.  Returns the
structured-data text (or `none` for NILVALUE) and the free-text body. -/
def parseSdAndMsg : List Char → Option (Option String × String)
  | ['-'] => some (none, "")
  | '-' :: ' ' :: ms => some (none, String.mk ms)
  | '[' :: cs =>
    (match sdElems (cs.length + 1) ('[' :: cs) with
     | none => none
     | some (raw, rest) =>
       match rest with
       | [] => some (some (String.mk raw), "")
       | ' ' :: ms => some (some (String.mk raw), String.mk ms)
       | _ => none)
  | _ => none

/-- Modelled from the spec: full left-to-right structural decomposition of
one syslog line; an `Except` error names the structural violation. -/
def parseRfc5424Core (s : String) : Except String Rfc5424Record :=
  match parsePri s.toList with
  | none => .error "malformed PRI"
  | some (pri, r1) =>
    match tokenSp r1 with
    | none => .error "missing version field"
    | some (vtok, r2) =>
      if !(vtok.all Char.isDigit) then .error "malformed version"
      else
        match tokenSp r2 with
        | none => .error "missing timestamp field"
        | some (ts, r3) =>
          match tokenSp r3 with
          | none => .error "missing hostname field"
          | some (hn, r4) =>
            match tokenSp r4 with
            | none => .error "missing app-name field"
            | some (an, r5) =>
              match tokenSp r5 with
              | none => .error "missing procid field"
              | some (pid, r6) =>
                match tokenSp r6 with
                | none => .error "missing msgid field"
                | some (mid, r7) =>
                  match parseSdAndMsg r7 with
                  | none => .error "malformed structured data"
                  | some (sd, msg) =>
                    .ok { priority := pri
                          facility := pri / 8
                          severity := pri % 8
                          version := digitsToNat vtok
                          timestamp := String.mk ts
                          hostname := String.mk hn
                          appName := String.mk an
                          procId := String.mk pid
                          msgId := String.mk mid
                          structuredData := sd
                          message := msg }

/-- A parsed message: a structured record on success, or the original
message passed through unchanged together with the failure reason. -/
inductive ParsedMessage where
  | structured (r : Rfc5424Record)
  | passthrough (original : String) (reason : String)
deriving DecidableEq, Repr

/-- Modelled from the spec: the parser's per-message entry point is total —
a structural violation yields the passthrough variant carrying the input
unchanged, never a fatal condition. -/
def parseRfc5424 (s : String) : ParsedMessage :=
  match parseRfc5424Core s with
  | .ok r => .structured r
  | .error reason => .passthrough s reason

/-- Whether a parsed message is the structured variant. -/
def isStructured : ParsedMessage → Bool
  | .structured _ => true
  | .passthrough _ _ => false

/-- The parser's statistics counters (spec section 4.4: processed, parse
successes, parse errors). -/
structure ParserStats where
  processed : Nat
  succeeded : Nat
  failed : Nat
deriving DecidableEq, Repr

/-- Modelled from the spec: `parser.StreamingParse` drains the raw queue,
emitting exactly one `ParsedMessage` per `RawMessage` and tallying the
counters. -/
def streamingParse (raws : List String) : List ParsedMessage × ParserStats :=
  (raws.map parseRfc5424,
   { processed := raws.length
     succeeded := (raws.filter (fun r => isStructured (parseRfc5424 r))).length
     failed := (raws.filter (fun r => !isStructured (parseRfc5424 r))).length })

/-- Modelled from the spec: wire serialization of a parsed message — the
structured record's body for a parsed record, the raw text for
passthrough. -/
def serialize : ParsedMessage → String
  | .structured r => r.message
  | .passthrough orig _ => orig

/-- The parser-stage wiring of `main` (syslog-gollector.go:147-160).  With
parsing enabled, `prodChan = parser.StreamingParse(rawChan)`: the parser
consumes every raw message.  With parsing disabled, a parser instance is
still constructed ("work around issue in ServeStatistics when parser is
nil") but `prodChan = rawChan`: messages bypass the parser entirely, so the
dummy parser processes nothing and its counters stay zero.  Returns the
producer-channel contents and the parser instance's statistics. -/
def mainPipeline (pEnabled : Bool) (raws : List String) : List String × ParserStats :=
  if pEnabled then
    let p := streamingParse raws
    (p.1.map serialize, p.2)
  else
    (raws, { processed := 0, succeeded := 0, failed := 0 })

/-! ## Batch producer

Modelled from the spec: the `output.KafkaProducer` implementation is not
part of the sources here (only its construction in `main` is), so the batch
producer is modelled from the design spec, section 4.5: one open batch at a
time; on admitting an item, record the open time if the batch was empty,
then evaluate the three flush conditions first-true-wins (item count
reaching `kBatch`, elapsed time since batch open reaching `kBufferTime`,
accumulated byte size reaching `kBufferBytes`); the time condition is also
evaluated by a background timer so it fires without new items; after a
flush the batch resets to empty. -/

/-- The producer's flush thresholds. -/
structure BatchConfig where
  kBatch : Nat
  kBufferTime : Nat
  kBufferBytes : Nat
deriving DecidableEq, Repr

/-- The open batch: its items in admission order, the time the batch was
opened (first item admitted), and its accumulated byte size. -/
structure BatchState where
  items : List String
  openTime : Nat
  bytes : Nat
deriving DecidableEq, Repr

/-- The reset (empty) batch. -/
def emptyBatch : BatchState :=
  { items := [], openTime := 0, bytes := 0 }

/-- Which of the three flush conditions fired. -/
inductive Trigger where
  | count
  | time
  | size
deriving DecidableEq, Repr

/-- Modelled from the spec: evaluate the three flush conditions
first-true-wins, at wall-clock time `now`. -/
def flushTrigger (cfg : BatchConfig) (st : BatchState) (now : Nat) : Option Trigger :=
  if cfg.kBatch ≤ st.items.length then some .count
  else if cfg.kBufferTime ≤ now - st.openTime then some .time
  else if cfg.kBufferBytes ≤ st.bytes then some .size
  else none

/-- An event observed by the producer loop: an item popped from the parsed
queue at time `now`, or a background timer tick at time `now`. -/
inductive BatchEvent where
  | deliver (m : String) (now : Nat)
  | tick (now : Nat)
deriving DecidableEq, Repr

/-- Admit one item into the open batch: record the open time when the batch
was empty, append the item, accumulate its byte size. -/
def addItem (st : BatchState) (m : String) (now : Nat) : BatchState :=
  { items := st.items ++ [m]
    openTime := if st.items.isEmpty then now else st.openTime
    bytes := st.bytes + m.length }

/-- Modelled from the spec: one step of the producer.  On admission the
triggers are evaluated on the updated batch; on a timer tick they are
evaluated on the batch as it stands (an empty batch is never flushed).
Returns the new state and the flushed batches (each a list of items). -/
def batchStep (cfg : BatchConfig) (st : BatchState) (e : BatchEvent) :
    BatchState × List (List String) :=
  match e with
  | .deliver m now =>
    let st2 := addItem st m now
    match flushTrigger cfg st2 now with
    | some _ => (emptyBatch, [st2.items])
    | none => (st2, [])
  | .tick now =>
    if st.items.isEmpty then (st, [])
    else
      match flushTrigger cfg st now with
      | some _ => (emptyBatch, [st.items])
      | none => (st, [])

/-- Run the producer over a sequence of events, collecting every flush. -/
def batchRun (cfg : BatchConfig) (st : BatchState) :
    List BatchEvent → BatchState × List (List String)
  | [] => (st, [])
  | e :: es =>
    let p := batchStep cfg st e
    let q := batchRun cfg p.1 es
    (q.1, p.2 ++ q.2)

/-! ## Handoff queue

Modelled from the spec: the handoff queues are Go channels
(`make(chan string, cCapacity)`, syslog-gollector.go:148-149) whose runtime
implementation is not part of the sources here, so the queue is modelled
from the design spec, section 4.1: a bounded FIFO of capacity `cap`;
`push` blocks when full, `pop` blocks when empty, and at capacity 0 a push
and a concurrent pop rendezvous synchronously with no buffering. -/

/-- An observable queue operation: a push completing alone (into buffer
space), a pop completing alone (from the buffer), or a push and a pop
completing together as a synchronous rendezvous. -/
inductive ChanOp (α : Type) where
  | push (a : α)
  | pop (a : α)
  | rendezvous (a : α)
deriving DecidableEq, Repr

/-- Modelled from the spec: the queue's transition relation.  A lone push
requires buffer space below capacity; a lone pop takes the oldest buffered
item; a rendezvous transfers an item directly while the buffer is empty. -/
inductive ChanStep (cap : Nat) {α : Type} : List α → ChanOp α → List α → Prop where
  | push : ∀ (a : α) (s : List α), s.length < cap → ChanStep cap s (.push a) (s ++ [a])
  | pop : ∀ (a : α) (s : List α), ChanStep cap (a :: s) (.pop a) s
  | rendezvous : ∀ (a : α), ChanStep cap [] (.rendezvous a) []

/-- States of the queue reachable from the initial empty buffer. -/
inductive ChanReach (cap : Nat) {α : Type} : List α → Prop where
  | init : ChanReach cap []
  | step : ∀ (s : List α) (op : ChanOp α) (s2 : List α),
      ChanReach cap s → ChanStep cap s op s2 → ChanReach cap s2

/-- The snapshots of an all-successful resource list, keyed as collected by
`ServeStatistics` (entries whose `GetStatistics` failed are skipped). -/
def stripOk {σ : Type} (l : List (String × Except String σ)) : List (String × σ) :=
  l.filterMap (fun p => match p.2 with | .ok s => some (p.1, s) | .error _ => none)

/-! ## Helper lemmas -/

/-- When every resource's snapshot succeeds, the collection loop succeeds
and returns all snapshots keyed in iteration order. -/
theorem gatherStats_all_ok {σ : Type} :
    ∀ l : List (String × Except String σ),
    (∀ p ∈ l, ∃ s, p.2 = Except.ok s) → gatherStats l = .ok (stripOk l) := by
  intro l
  induction l with
  | nil => intro _; rfl
  | cons hd tl ih =>
    intro h
    obtain ⟨s, hs⟩ := h hd (List.mem_cons_self hd tl)
    obtain ⟨k, v⟩ := hd
    simp only at hs
    subst hs
    simp only [gatherStats, stripOk, List.filterMap_cons]
    rw [ih (fun p hp => h p (List.mem_cons_of_mem _ hp))]
    rfl

/-- When some resource's snapshot fails, the collection loop fails. -/
theorem gatherStats_error {σ : Type} :
    ∀ (l : List (String × Except String σ)) (k : String) (e : String),
    (k, Except.error e) ∈ l → ∃ k2, gatherStats l = .error k2 := by
  intro l k e hmem
  induction l with
  | nil => cases hmem
  | cons hd tl ih =>
    obtain ⟨k1, v1⟩ := hd
    rcases List.mem_cons.mp hmem with heq | hmem2
    · cases heq
      exact ⟨k, rfl⟩
    · obtain ⟨k2, hk2⟩ := ih hmem2
      cases v1 with
      | error e1 => exact ⟨k1, rfl⟩
      | ok s1 =>
        refine ⟨k2, ?_⟩
        simp only [gatherStats, hk2]

/-- Every record the structural decomposition accepts carries
facility and severity decomposed from its priority value. -/
theorem core_pri_decomp : ∀ (s : String) (r : Rfc5424Record),
    parseRfc5424Core s = .ok r → r.facility = r.priority / 8 ∧ r.severity = r.priority % 8 := by
  intro s r h
  unfold parseRfc5424Core at h
  repeat' split at h
  all_goals first
    | exact Except.noConfusion h
    | (cases h; exact ⟨rfl, rfl⟩)

/-- A filter and its complement partition a list's length. -/
theorem length_filter_add_length_filter_not {α : Type} (p : α → Bool) :
    ∀ l : List α, (l.filter p).length + (l.filter fun a => !p a).length = l.length := by
  intro l
  induction l with
  | nil => rfl
  | cons a l ih => cases h : p a <;> simp [List.filter_cons, h, ← ih] <;> omega

/-- At capacity 0 the only step enabled from the empty buffer is a
synchronous rendezvous, which leaves the buffer empty. -/
theorem chanStep_zero_empty {α : Type} (op : ChanOp α) (s2 : List α)
    (h : ChanStep 0 ([] : List α) op s2) : (∃ a, op = .rendezvous a) ∧ s2 = [] := by
  cases h with
  | push a s hlt => exact absurd hlt (Nat.not_lt_zero _)
  | rendezvous a => exact ⟨⟨a, rfl⟩, rfl⟩

/-! ## Claim theorems -/

/-- C1 (counterexample): the claim says the parser's processed counter
increments by one for every message flowing through the pipeline with
parsing disabled; but with parsing disabled `main` sets
`prodChan = rawChan`, so after one message the dummy parser's processed
counter is 0, not 1. -/
theorem C1_counterexample :
    ¬ ((mainPipeline false ["msg1"]).2.processed = ["msg1"].length) := by
  decide

/-- C1 (amended): when parsing is disabled, every raw message passes
through to the producer channel unchanged, but the parser instance —
constructed only so `ServeStatistics` can query it — receives no messages,
so its processed counter stays 0 instead of incrementing per message. -/
theorem C1_disabled_passthrough (raws : List String) :
    (mainPipeline false raws).1 = raws ∧
    (mainPipeline false raws).2.processed = 0 ∧
    (mainPipeline false raws).2.succeeded = 0 ∧
    (mainPipeline false raws).2.failed = 0 :=
  ⟨rfl, rfl, rfl, rfl⟩

/-- C3: `main` exits with status 1 on each fatal startup condition —
hostname resolution failure, administrative server bind failure, Kafka
producer connection failure, TCP bind failure, UDP bind failure — after
emitting a diagnostic; exit code 0 is never reached, and when no startup
step fails the process blocks forever in the final empty `select`. -/
theorem C3_fatal_startup (e : StartupEnv) :
    (∀ d, mainStartup e ≠ .exitWith 0 d) ∧
    (anyStartupErr e = true → ∃ d, mainStartup e = .exitWith 1 d ∧ d ≠ "") ∧
    (anyStartupErr e = false → mainStartup e = .runForever) ∧
    (e.hostnameErr = true →
      mainStartup e = .exitWith 1 "unable to determine hostname -- aborting") ∧
    (e.hostnameErr = false → e.adminBindErr = true →
      mainStartup e = .exitWith 1 "Failed to start admin server") ∧
    (e.hostnameErr = false → e.adminBindErr = false → e.kafkaErr = true →
      mainStartup e = .exitWith 1 "Failed to create Kafka producer") ∧
    (e.hostnameErr = false → e.adminBindErr = false → e.kafkaErr = false → e.tcpErr = true →
      mainStartup e = .exitWith 1 "Failed to start TCP server") ∧
    (e.hostnameErr = false → e.adminBindErr = false → e.kafkaErr = false → e.tcpErr = false →
      e.udpErr = true → mainStartup e = .exitWith 1 "Failed to start UDP server") := by
  rcases e with ⟨h, a, k, t, u⟩
  cases h <;> cases a <;> cases k <;> cases t <;> cases u <;>
    simp [mainStartup, anyStartupErr]

/-- C3 (witness): a hostname-resolution failure makes the process exit
with code 1 and a non-empty diagnostic. -/
theorem C3_fatal_startup_witness :
    ∃ d, mainStartup ⟨true, false, false, false, false⟩ = .exitWith 1 d ∧ d ≠ "" :=
  (C3_fatal_startup ⟨true, false, false, false, false⟩).2.1 rfl

/-- C6: with no command-line flags, every configuration option takes
exactly the documented default: admin localhost:8080, TCP localhost:514,
UDP localhost:514, brokers localhost:9092, topic logs, batch 10, buffer
time 1000 ms, buffer bytes 524288, parsing enabled, queue capacity 0. -/
theorem C6_default_config :
    defaultConfig.adminIface = "localhost:8080" ∧
    defaultConfig.tcpIface = "localhost:514" ∧
    defaultConfig.udpIface = "localhost:514" ∧
    defaultConfig.kBrokers = "localhost:9092" ∧
    defaultConfig.kTopic = "logs" ∧
    defaultConfig.kBatch = 10 ∧
    defaultConfig.kBufferTime = 1000 ∧
    defaultConfig.kBufferBytes = 524288 ∧
    defaultConfig.pEnabled = true ∧
    defaultConfig.cCapacity = 0 :=
  ⟨rfl, rfl, rfl, rfl, rfl, rfl, rfl, rfl, rfl, rfl⟩

/-- C2: for every GET /statistics request, whatever iteration order Go
gives the `{tcp, udp, parser, kafka}` resource map: when all four
snapshots succeed (and marshalling succeeds) the response body is the four
snapshots merged into one object keyed by component name; when any single
component's `GetStatistics` fails, the request fails with HTTP 500 and no
statistics body is written. -/
theorem C2_statistics_merge_or_500 {σ : Type} (tcp udp parser kafka : Except String σ)
    (order : List (String × Except String σ))
    (hperm : order.Perm [("tcp", tcp), ("udp", udp), ("parser", parser), ("kafka", kafka)])
    (form : FormResult) (marshalOk : Bool) :
    (∀ (a b c d : σ), tcp = .ok a → udp = .ok b → parser = .ok c → kafka = .ok d →
       marshalOk = true →
       ∃ fmt res, ServeStatistics order form marshalOk = .okBody fmt res ∧
         res.Perm [("tcp", a), ("udp", b), ("parser", c), ("kafka", d)]) ∧
    ((∃ e, tcp = .error e ∨ udp = .error e ∨ parser = .error e ∨ kafka = .error e) →
       ∃ msg, ServeStatistics order form marshalOk = .httpError 500 msg) := by
  constructor
  · intro a b c d h1 h2 h3 h4 hm
    subst h1; subst h2; subst h3; subst h4; subst hm
    have hall : ∀ p ∈ order, ∃ v, p.2 = Except.ok v := by
      intro p hp
      have hp2 := hperm.subset hp
      simp only [List.mem_cons, List.not_mem_nil, or_false] at hp2
      rcases hp2 with h | h | h | h <;> subst h
      · exact ⟨a, rfl⟩
      · exact ⟨b, rfl⟩
      · exact ⟨c, rfl⟩
      · exact ⟨d, rfl⟩
    have hg := gatherStats_all_ok order hall
    refine ⟨if (isPretty form).1 then .indented else .compact, stripOk order, ?_, ?_⟩
    · unfold ServeStatistics
      rw [hg]
      rfl
    · exact hperm.filterMap _
  · rintro ⟨e, h | h | h | h⟩ <;> subst h
    · obtain ⟨k2, hk2⟩ := gatherStats_error order "tcp" e (hperm.symm.subset (by simp))
      exact ⟨"failed to get " ++ k2 ++ " stats", by unfold ServeStatistics; rw [hk2]⟩
    · obtain ⟨k2, hk2⟩ := gatherStats_error order "udp" e (hperm.symm.subset (by simp))
      exact ⟨"failed to get " ++ k2 ++ " stats", by unfold ServeStatistics; rw [hk2]⟩
    · obtain ⟨k2, hk2⟩ := gatherStats_error order "parser" e (hperm.symm.subset (by simp))
      exact ⟨"failed to get " ++ k2 ++ " stats", by unfold ServeStatistics; rw [hk2]⟩
    · obtain ⟨k2, hk2⟩ := gatherStats_error order "kafka" e (hperm.symm.subset (by simp))
      exact ⟨"failed to get " ++ k2 ++ " stats", by unfold ServeStatistics; rw [hk2]⟩

/-- C2 (witness): when the kafka snapshot fails, the concrete request
answers HTTP 500. -/
theorem C2_statistics_witness :
    ∃ msg, ServeStatistics
        [("tcp", Except.ok (1 : Nat)), ("udp", .ok 2), ("parser", .ok 3), ("kafka", .error "boom")]
        (Except.ok []) true = .httpError 500 msg :=
  (C2_statistics_merge_or_500 (Except.ok 1) (.ok 2) (.ok 3) (.error "boom") _
      (List.Perm.refl _) (Except.ok []) true).2
    ⟨"boom", Or.inr (Or.inr (Or.inr rfl))⟩

/-- C4: the parser is total — every raw message yields exactly one parsed
message (the output count equals the input count and the processed counter
counts them all), each input becomes either a structured record or a
passthrough carrying the original message unchanged with a failure reason,
the parse-error counter counts exactly the passthrough outputs, and the
success and error counters partition the processed count; no fatal
condition exists (the parse function is total by construction). -/
theorem C4_parser_totality (raws : List String) :
    (streamingParse raws).1.length = raws.length ∧
    (streamingParse raws).2.processed = raws.length ∧
    (∀ s : String,
      (∃ r, parseRfc5424 s = .structured r) ∨
      (∃ reason, parseRfc5424 s = .passthrough s reason)) ∧
    (streamingParse raws).2.failed =
      ((streamingParse raws).1.filter (fun m => !isStructured m)).length ∧
    (streamingParse raws).2.succeeded + (streamingParse raws).2.failed =
      (streamingParse raws).2.processed := by
  refine ⟨List.length_map raws parseRfc5424, rfl, ?_, ?_, ?_⟩
  · intro s
    unfold parseRfc5424
    cases h : parseRfc5424Core s with
    | ok r => exact Or.inl ⟨r, rfl⟩
    | error reason => exact Or.inr ⟨reason, rfl⟩
  · show (raws.filter fun r => !isStructured (parseRfc5424 r)).length =
      ((raws.map parseRfc5424).filter fun m => !isStructured m).length
    rw [List.filter_map, List.length_map]
    rfl
  · exact length_filter_add_length_filter_not (fun r => isStructured (parseRfc5424 r)) raws

/-- C5: a batch flush occurs if and only if one of the three trigger
conditions — item count reaching kBatch, elapsed time since batch open
reaching kBufferTime, accumulated byte size reaching kBufferBytes — holds
at evaluation time, first-true-wins; with kBatch = 3 and neither the time
nor the byte trigger able to fire, admitting 3 items produces exactly one
flush of exactly those 3 items; and a timer tick on a non-empty batch
whose time threshold has elapsed flushes even though no new item arrived. -/
theorem C5_batch_flush (cfg : BatchConfig) (st : BatchState) (m : String) (now : Nat) :
    (flushTrigger cfg st now ≠ none ↔
      (cfg.kBatch ≤ st.items.length ∨ cfg.kBufferTime ≤ now - st.openTime ∨
        cfg.kBufferBytes ≤ st.bytes)) ∧
    (cfg.kBatch ≤ st.items.length → flushTrigger cfg st now = some .count) ∧
    ((batchStep cfg st (.deliver m now)).2 ≠ [] ↔
      flushTrigger cfg (addItem st m now) now ≠ none) ∧
    (st.items ≠ [] →
      ((batchStep cfg st (.tick now)).2 ≠ [] ↔ flushTrigger cfg st now ≠ none)) ∧
    (st.items ≠ [] → cfg.kBufferTime ≤ now - st.openTime →
      (batchStep cfg st (.tick now)).2 = [st.items]) ∧
    (batchRun ⟨3, 1000, 524288⟩ emptyBatch [.deliver "a" 0, .deliver "b" 0, .deliver "c" 0] =
      (emptyBatch, [["a", "b", "c"]])) := by
  refine ⟨?_, ?_, ?_, ?_, ?_, rfl⟩
  · unfold flushTrigger
    split_ifs with h1 h2 h3 <;> simp_all
  · intro h1
    unfold flushTrigger
    simp [h1]
  · cases hft : flushTrigger cfg (addItem st m now) now <;>
      simp [batchStep, hft]
  · intro hne
    have hemp : st.items.isEmpty = false := by
      cases hi : st.items with
      | nil => exact absurd hi hne
      | cons x xs => rfl
    cases hft : flushTrigger cfg st now <;>
      simp [batchStep, hemp, hft]
  · intro hne htime
    have hemp : st.items.isEmpty = false := by
      cases hi : st.items with
      | nil => exact absurd hi hne
      | cons x xs => rfl
    have hsome : ∃ t, flushTrigger cfg st now = some t := by
      unfold flushTrigger
      split_ifs <;> simp_all
    obtain ⟨t, hft⟩ := hsome
    simp [batchStep, hemp, hft]

/-- C5 (witness): with thresholds kBatch = 10, kBufferTime = 5 ms,
kBufferBytes = 100, a timer tick at time 5 on a batch of one item opened at
time 0 flushes that batch with no new item arriving. -/
theorem C5_batch_flush_witness :
    (batchStep ⟨10, 5, 100⟩ ⟨["x"], 0, 1⟩ (.tick 5)).2 = [["x"]] :=
  (C5_batch_flush ⟨10, 5, 100⟩ ⟨["x"], 0, 1⟩ "" 5).2.2.2.2.1 (by decide) (by decide)

/-- C7: every successfully parsed message has facility = priority / 8
(integer division) and severity = priority mod 8, and the spec's example
line parses, with parsing enabled, to facility 4, severity 2, hostname
host1, app name app1, process id 123, message id ID47, absent structured
data, and body "message body". -/
theorem C7_pri_decomposition :
    (∀ (s : String) (r : Rfc5424Record), parseRfc5424 s = .structured r →
      r.facility = r.priority / 8 ∧ r.severity = r.priority % 8) ∧
    parseRfc5424 "<34>1 2021-03-01T12:00:00Z host1 app1 123 ID47 - message body" =
      .structured { priority := 34, facility := 4, severity := 2, version := 1,
                    timestamp := "2021-03-01T12:00:00Z", hostname := "host1",
                    appName := "app1", procId := "123", msgId := "ID47",
                    structuredData := none, message := "message body" } := by
  constructor
  · intro s r h
    unfold parseRfc5424 at h
    cases hc : parseRfc5424Core s with
    | ok r2 =>
      rw [hc] at h
      injection h with h2
      subst h2
      exact core_pri_decomp s _ hc
    | error reason =>
      rw [hc] at h
      cases h
  · rfl

/-- C7 (witness): the record parsed from the example line satisfies the
facility/severity decomposition at priority 34. -/
theorem C7_pri_decomposition_witness :
    ({ priority := 34, facility := 4, severity := 2, version := 1,
       timestamp := "2021-03-01T12:00:00Z", hostname := "host1", appName := "app1",
       procId := "123", msgId := "ID47", structuredData := none,
       message := "message body" } : Rfc5424Record).facility =
      ({ priority := 34, facility := 4, severity := 2, version := 1,
         timestamp := "2021-03-01T12:00:00Z", hostname := "host1", appName := "app1",
         procId := "123", msgId := "ID47", structuredData := none,
         message := "message body" } : Rfc5424Record).priority / 8 :=
  (C7_pri_decomposition.1 "<34>1 2021-03-01T12:00:00Z host1 app1 123 ID47 - message body"
    _ C7_pri_decomposition.2).1

/-- C8: `isPretty` returns true if and only if the parsed form contains
the key "pretty" (whatever its value), and for both administrative
endpoints the response is indented exactly when `isPretty` is true:
/diagnostics always formats by `isPretty`, and any successful /statistics
body is indented exactly when `isPretty` is true. -/
theorem C8_pretty_formatting {σ : Type} (form : FormResult) (marshalOk : Bool)
    (started uptime : String) (resources : List (String × Except String σ)) :
    ((isPretty form).1 = true ↔ ∃ keys, form = .ok keys ∧ "pretty" ∈ keys) ∧
    ((ServeDiagnostics form marshalOk started uptime).2.1 = .indented ↔
      (isPretty form).1 = true) ∧
    (∀ (fmt : JsonFmt) (payload : List (String × σ)),
      ServeStatistics resources form marshalOk = .okBody fmt payload →
      (fmt = .indented ↔ (isPretty form).1 = true)) := by
  refine ⟨?_, ?_, ?_⟩
  · cases form with
    | error e => simp [isPretty]
    | ok keys =>
      by_cases h : "pretty" ∈ keys <;> simp [isPretty, h]
      · exact ⟨keys, rfl, h⟩
      · intro x hx
        injection hx with hx
        subst hx
        exact h
  · unfold ServeDiagnostics
    cases hp : (isPretty form).1 <;> simp
  · intro fmt payload h
    unfold ServeStatistics at h
    cases hg : gatherStats resources with
    | error k => rw [hg] at h; cases h
    | ok stats =>
      rw [hg] at h
      cases marshalOk with
      | false => cases h
      | true =>
        simp only [if_true] at h
        injection h with hfmt _
        subst hfmt
        cases hp : (isPretty form).1 <;> simp

/-- C8 (witness): a request whose parsed form contains the key "pretty"
yields an indented /statistics body. -/
theorem C8_pretty_formatting_witness :
    JsonFmt.indented = JsonFmt.indented ↔ (isPretty (Except.ok ["pretty"])).1 = true :=
  (C8_pretty_formatting (Except.ok ["pretty"]) true "" "" [("tcp", Except.ok (0 : Nat))]).2.2
    .indented [("tcp", 0)] (by rfl)

/-- C9: at queue capacity 0 the handoff queue performs no buffering at
all — every state reachable from the initial empty buffer is the empty
buffer, and the only operation ever enabled is a synchronous rendezvous in
which a push and a concurrent pop complete together. -/
theorem C9_zero_capacity_rendezvous {α : Type} (s : List α) (h : ChanReach 0 s) :
    s = [] ∧ ∀ (op : ChanOp α) (s2 : List α), ChanStep 0 s op s2 →
      (∃ a, op = .rendezvous a) ∧ s2 = [] := by
  induction h with
  | init => exact ⟨rfl, fun op s2 hstep => chanStep_zero_empty op s2 hstep⟩
  | step s op s2 hreach hstep ih =>
    obtain ⟨hs, _⟩ := ih
    subst hs
    obtain ⟨_, hs2⟩ := chanStep_zero_empty op s2 hstep
    subst hs2
    exact ⟨rfl, fun op2 s3 hstep2 => chanStep_zero_empty op2 s3 hstep2⟩

/-- C9 (witness): from the (reachable) initial empty buffer at capacity 0,
the rendezvous transferring "m" is an enabled step, it is a rendezvous, and
it leaves the buffer empty. -/
theorem C9_zero_capacity_witness :
    (∃ a, (ChanOp.rendezvous "m" : ChanOp String) = .rendezvous a) ∧ ([] : List String) = [] :=
  (C9_zero_capacity_rendezvous [] ChanReach.init).2 (.rendezvous "m") []
    (ChanStep.rendezvous "m")

/-- C10: for every request to either administrative endpoint, a form-parse
error is silently discarded — `isPretty` reports it but both handlers drop
it and fall back to compact formatting, and a /statistics request whose
snapshots and marshalling succeed still answers with a body — and
/diagnostics also ignores marshalling errors, so it answers status 200 for
every request. -/
theorem C10_errors_discarded {σ : Type} (e : FormError) (started uptime : String) :
    (∀ (form : FormResult) (marshalOk : Bool),
      (ServeDiagnostics form marshalOk started uptime).1 = 200) ∧
    isPretty (Except.error e) = (false, some e) ∧
    (∀ marshalOk,
      (ServeDiagnostics (Except.error e) marshalOk started uptime).2.1 = .compact) ∧
    (∀ (resources : List (String × Except String σ)) (stats : List (String × σ)),
      gatherStats resources = .ok stats →
      ServeStatistics resources (Except.error e) true = .okBody .compact stats) := by
  refine ⟨fun _ _ => rfl, rfl, fun _ => rfl, ?_⟩
  intro resources stats hg
  unfold ServeStatistics
  rw [hg]
  rfl

/-- C10 (witness): with a malformed form, a /statistics request whose only
snapshot succeeds still answers with a compact body. -/
theorem C10_errors_discarded_witness :
    ServeStatistics [("tcp", Except.ok (0 : Nat))] (Except.error (.malformed "bad")) true =
      .okBody .compact [("tcp", 0)] :=
  (C10_errors_discarded (σ := Nat) (.malformed "bad") "" "").2.2.2
    [("tcp", Except.ok 0)] [("tcp", 0)] rfl

end SyslogGollector
